import Mathlib

/-!
Dashboard front end: data synchronisation logic.

A shallow embedding of the two React components of the repository

* `src/components/overview/OverviewChart.jsx` (socket lifecycle, live and
  historical handlers, reset), and
* `src/pages/OverviewPage.jsx` (summary poller),

as explicit state machines.  React state cells become record fields, a
`useEffect` body and its cleanup become functions on the record, and the
values a closure captures at effect time are stored with the object that
owns the closure (the socket, the timer, the in-flight fetch).

Measurement values (`temperature`, `humidity`, `co2`, `timestamp`) are kept
abstract (a type `V`); the only operation the code applies to them is the
string conversion of a template literal, which is a parameter `toStr`.
-/

namespace Dashboard

/-- JavaScript truthiness of a string: only the empty string is falsy. -/
def truthy (s : String) : Bool := s != ""

/-- A Reading-like record as it arrives from the backend. -/
structure Reading (V : Type) where
  nodeId : String
  timestamp : V
  temperature : V
  humidity : V
  co2 : V
deriving DecidableEq

/-- What the server sends on `sensorDataByDate`: a JSON array of records, or a
JSON object, of which the code reads the truthiness of the `error` property. -/
inductive Payload (V : Type) where
  | array (rs : List (Reading V))
  | object (error : Bool)
deriving DecidableEq

/-- The truthiness of `data.error`; an array has no such property (`undefined`). -/
def Payload.error {V : Type} : Payload V → Bool
  | .array _ => false
  | .object e => e

/-- The callback of `data.filter((d) => d.nodeId === selectedNode)`. -/
def liveFilter {V : Type} (selectedNode : String) (data : List (Reading V)) :
    List (Reading V) :=
  data.filter (fun d => d.nodeId == selectedNode)

namespace OverviewChart

/-- One `io(SOCKET_SERVER_URL)` connection, with the `selectedDate` and
`selectedNode` its two handlers closed over.  `connected` is cleared by
`socket.disconnect()`; a disconnected socket.io socket is detached from its
manager and dispatches no further packets to its handlers. -/
structure Socket where
  id : Nat
  selectedDate : String
  selectedNode : String
  connected : Bool
deriving DecidableEq

/-- The calls the component makes on the transport, in order. -/
inductive Effect where
  | connect (id : Nat)
  | emitGetDataByDate (id : Nat) (date : String) (nodeId : String)
  | disconnect (id : Nat)
deriving DecidableEq

/-- The four `useState` cells of `OverviewChart`, whether the component is
mounted, every socket created so far (newest first) and the transport calls. -/
structure State (V : Type) where
  sensorData : Payload V
  selectedDate : String
  selectedNode : String
  loading : Bool
  mounted : Bool
  sockets : List Socket
  trace : List Effect
deriving DecidableEq

/-- The body of the `useEffect` (lines 28-52): open a socket, register the two
handlers (they live with the socket), and `if (selectedDate || selectedNode)`
set loading and emit `getDataByDate`. -/
def effect {V : Type} (s : State V) : State V :=
  let id := s.sockets.length
  let socket : Socket := ⟨id, s.selectedDate, s.selectedNode, true⟩
  let s1 : State V :=
    { s with sockets := socket :: s.sockets, trace := s.trace ++ [Effect.connect id] }
  if truthy s.selectedDate || truthy s.selectedNode then
    { s1 with
      loading := true
      trace := s1.trace ++ [Effect.emitGetDataByDate id s.selectedDate s.selectedNode] }
  else s1

/-- The cleanup returned by the effect (line 54): `socket.disconnect()` on the
socket the last effect run created. -/
def cleanup {V : Type} (s : State V) : State V :=
  match s.sockets with
  | [] => s
  | k :: ks =>
    { s with
      sockets := { k with connected := false } :: ks
      trace := s.trace ++ [Effect.disconnect k.id] }

/-- A commit with the filter cells set to `date` and `node`: React compares the
dependency list `[selectedDate, selectedNode]` with the previous one and, only
when it differs, runs the old cleanup and then the effect again. -/
def commit {V : Type} (s : State V) (date node : String) : State V :=
  if date = s.selectedDate ∧ node = s.selectedNode then s
  else effect (cleanup { s with selectedDate := date, selectedNode := node })

/-- The date input's `onChange` (line 87). -/
def setSelectedDate {V : Type} (s : State V) (v : String) : State V :=
  commit s v s.selectedNode

/-- The node select's `onChange` (line 91). -/
def setSelectedNode {V : Type} (s : State V) (v : String) : State V :=
  commit s s.selectedDate v

/-- The Reset button's `onClick` (lines 99-102); both setters are batched into
one commit. -/
def reset {V : Type} (s : State V) : State V :=
  commit s "" "ESP32-1"

/-- Unmounting runs the last cleanup. -/
def unmount {V : Type} (s : State V) : State V :=
  { cleanup s with mounted := false }

/-- The `sensorDataUpdate` handler of socket `k` (lines 31-36). -/
def onSensorDataUpdate {V : Type} (k : Socket) (s : State V) (data : List (Reading V)) :
    State V :=
  if !truthy k.selectedDate then
    { s with sensorData := Payload.array (liveFilter k.selectedNode data) }
  else s

/-- The `sensorDataByDate` handler (lines 47-52). -/
def onSensorDataByDate {V : Type} (s : State V) (data : Payload V) : State V :=
  let s1 : State V := if !data.error then { s with sensorData := data } else s
  { s1 with loading := false }

/-- A packet for socket `sid` reaches that socket's handler only while the
socket is connected. -/
def deliver {V : Type} (s : State V) (sid : Nat) (handler : Socket → State V → State V) :
    State V :=
  match s.sockets.find? (fun k => k.id == sid) with
  | some k => if k.connected then handler k s else s
  | none => s

/-- Everything that can happen to a mounted chart: the three user actions,
unmount, and the arrival of either server event on some socket. -/
inductive Event (V : Type) where
  | setSelectedDate (v : String)
  | setSelectedNode (v : String)
  | reset
  | unmount
  | sensorDataUpdate (sid : Nat) (data : List (Reading V))
  | sensorDataByDate (sid : Nat) (data : Payload V)
deriving DecidableEq

/-- One event.  User actions need the rendered component. -/
def step {V : Type} (s : State V) : Event V → State V
  | .setSelectedDate v => if s.mounted then setSelectedDate s v else s
  | .setSelectedNode v => if s.mounted then setSelectedNode s v else s
  | .reset => if s.mounted then reset s else s
  | .unmount => if s.mounted then unmount s else s
  | .sensorDataUpdate sid data => deliver s sid (fun k t => onSensorDataUpdate k t data)
  | .sensorDataByDate sid data => deliver s sid (fun _ t => onSensorDataByDate t data)

/-- The `useState` initial values (lines 20-23), before any effect has run. -/
def initialCells {V : Type} : State V :=
  { sensorData := Payload.array []
    selectedDate := ""
    selectedNode := "ESP32-1"
    loading := false
    mounted := true
    sockets := []
    trace := [] }

/-- The first mount: the initial cells, then the effect. -/
def init {V : Type} : State V :=
  effect initialCells

/-- The state after a sequence of events following the first mount. -/
def run {V : Type} (evs : List (Event V)) : State V :=
  evs.foldl step init

/-- Number of sockets currently connected. -/
def openCount {V : Type} (s : State V) : Nat :=
  (s.sockets.filter (fun k => k.connected)).length

/-- Number of `io(...)` calls recorded. -/
def connects (t : List Effect) : Nat :=
  (t.filter (fun e => match e with | .connect _ => true | _ => false)).length

/-- Number of `socket.disconnect()` calls recorded. -/
def disconnects (t : List Effect) : Nat :=
  (t.filter (fun e => match e with | .disconnect _ => true | _ => false)).length

/-- Number of `getDataByDate` emits recorded. -/
def emits (t : List Effect) : Nat :=
  (t.filter (fun e => match e with | .emitGetDataByDate _ _ _ => true | _ => false)).length

/-- The socket of the latest effect run, if any. -/
def current {V : Type} (s : State V) : Option Socket :=
  s.sockets.head?

/-- The open/close calls of a trace never overlap: after every prefix of the
trace, the `disconnect()` calls made so far are at most the `io()` calls, and
at most one `io()` call is not yet matched by a `disconnect()`. -/
def balanced (t : List Effect) : Prop :=
  ∀ p, p <+: t → disconnects p ≤ connects p ∧ connects p ≤ disconnects p + 1

/-- Socket ids are creation indices: the newest socket is numbered by how many
came before it. -/
def idsOk : List Socket → Prop
  | [] => True
  | k :: ks => k.id = ks.length ∧ idsOk ks

/-- The lifecycle invariant of the chart: a newest socket exists, it is
connected exactly while the component is mounted and then carries the current
filter; every older socket is disconnected; the trace holds one `disconnect`
for each closed socket and one `connect` for each socket. -/
def Inv {V : Type} (s : State V) : Prop :=
  ∃ k ks, s.sockets = k :: ks ∧ idsOk (k :: ks) ∧
    k.connected = s.mounted ∧
    (s.mounted = true → k.selectedDate = s.selectedDate ∧ k.selectedNode = s.selectedNode) ∧
    (∀ j ∈ ks, j.connected = false) ∧
    (∀ i, Effect.disconnect i ∈ s.trace ↔ (i < ks.length ∨ (i = ks.length ∧ s.mounted = false))) ∧
    connects s.trace = ks.length + 1 ∧
    disconnects s.trace = ks.length + (if s.mounted then 0 else 1)

end OverviewChart

namespace OverviewPage

/-- The `latestSensorData` record shown by the stat cards. -/
structure Summary where
  temperature : String
  humidity : String
  co2 : String
deriving DecidableEq

/-- The initial `latestSensorData` (lines 18-22). -/
def loadingSummary : Summary :=
  { temperature := "Loading...", humidity := "Loading...", co2 := "Loading..." }

/-- How one call of `fetchSensorData` ends: `fetch` rejects, `response.json()`
rejects, or the body parses to an array of records. -/
inductive FetchResult (V : Type) where
  | networkError
  | parseError
  | ok (data : List (Reading V))
deriving DecidableEq

/-- A `setInterval(fetchSensorData, 5000)` timer with the `nodeId` its callback
closed over; `active` is cleared by `clearInterval`. -/
structure Timer where
  id : Nat
  nodeId : String
  active : Bool
deriving DecidableEq

/-- One call of `fetchSensorData`, with the `nodeId` in its URL; `pending` until
its promise settles. -/
structure Fetch where
  id : Nat
  nodeId : String
  pending : Bool
deriving DecidableEq

/-- The `useState` cells of `OverviewPage`, whether it is mounted, and every
timer and fetch started so far (newest first). -/
structure State (V : Type) where
  nodeId : String
  sensorData : List (Reading V)
  latestSensorData : Summary
  mounted : Bool
  timers : List Timer
  fetches : List Fetch
deriving DecidableEq

/-- Calling `fetchSensorData` (memoised for `nodeId`) starts a request (lines 27-29). -/
def fetchSensorData {V : Type} (nodeId : String) (s : State V) : State V :=
  { s with fetches := ⟨s.fetches.length, nodeId, true⟩ :: s.fetches }

/-- The rest of `fetchSensorData` once the request settles (lines 30-44): on
success `setSensorData(data)` and, if `data.length > 0`, the summary from
`data[0]`; on a rejection the `catch` only logs. -/
def resolve {V : Type} (toStr : V → String) (s : State V) : FetchResult V → State V
  | .networkError => s
  | .parseError => s
  | .ok data =>
    let s1 : State V := { s with sensorData := data }
    if data.length > 0 then
      match data.head? with
      | some latest =>
        { s1 with
          latestSensorData :=
            { temperature := toStr latest.temperature ++ "°C"
              humidity := toStr latest.humidity ++ "%"
              co2 := toStr latest.co2 ++ " ppm" } }
      | none => s1
    else s1

/-- The body of the `useEffect` (lines 49-50): fetch once, then start the timer. -/
def effect {V : Type} (s : State V) : State V :=
  let s1 := fetchSensorData s.nodeId s
  { s1 with timers := ⟨s.timers.length, s.nodeId, true⟩ :: s1.timers }

/-- The cleanup of the effect (line 51): `clearInterval(interval)`. -/
def cleanup {V : Type} (s : State V) : State V :=
  match s.timers with
  | [] => s
  | t :: ts => { s with timers := { t with active := false } :: ts }

/-- The node select's `onChange` (line 66): `fetchSensorData` is re-created only
when `nodeId` changes, and only then is the effect torn down and run again. -/
def setNodeId {V : Type} (s : State V) (v : String) : State V :=
  if v = s.nodeId then s else effect (cleanup { s with nodeId := v })

/-- Unmounting runs the last cleanup. -/
def unmount {V : Type} (s : State V) : State V :=
  { cleanup s with mounted := false }

/-- Mark fetch `fid` as settled. -/
def settle (fid : Nat) (fs : List Fetch) : List Fetch :=
  fs.map (fun f => if f.id == fid then { f with pending := false } else f)

/-- Events of the page: node selection, unmount, a timer firing, a request settling. -/
inductive Event (V : Type) where
  | setNodeId (v : String)
  | unmount
  | tick (tid : Nat)
  | fetchDone (fid : Nat) (result : FetchResult V)
deriving DecidableEq

/-- One event.  A cleared timer does not fire; a request settles once, and the
state updates of its continuation take effect only on a mounted component. -/
def step {V : Type} (toStr : V → String) (s : State V) : Event V → State V
  | .setNodeId v => if s.mounted then setNodeId s v else s
  | .unmount => if s.mounted then unmount s else s
  | .tick tid =>
    match s.timers.find? (fun t => t.id == tid) with
    | some t => if t.active then fetchSensorData t.nodeId s else s
    | none => s
  | .fetchDone fid result =>
    match s.fetches.find? (fun f => f.id == fid) with
    | some f =>
      if f.pending then
        let s1 : State V := { s with fetches := settle fid s.fetches }
        if s.mounted then resolve toStr s1 result else s1
      else s
    | none => s

/-- The first mount: initial cells (lines 12-22), then the effect. -/
def init {V : Type} : State V :=
  effect
    { nodeId := "ESP32-1"
      sensorData := []
      latestSensorData := loadingSummary
      mounted := true
      timers := []
      fetches := [] }

/-- The state after a sequence of events following the first mount. -/
def run {V : Type} (toStr : V → String) (evs : List (Event V)) : State V :=
  evs.foldl (step toStr) init

/-- The timers that have not been cleared. -/
def activeTimers {V : Type} (s : State V) : List Timer :=
  s.timers.filter (fun t => t.active)

/-- Fetch ids are creation indices. -/
def fetchIdsOk : List Fetch → Prop
  | [] => True
  | f :: fs => f.id = fs.length ∧ fetchIdsOk fs

/-- The lifecycle invariant of the page: a newest timer exists, it is active
exactly while the page is mounted, it polls the selected node, and every
older timer has been cleared. -/
def Inv {V : Type} (s : State V) : Prop :=
  (∃ t ts, s.timers = t :: ts ∧ t.id = ts.length ∧ t.active = s.mounted ∧
    t.nodeId = s.nodeId ∧ ∀ j ∈ ts, j.active = false) ∧
  fetchIdsOk s.fetches

end OverviewPage

end Dashboard

/-! ## Lifecycle invariant of the chart -/

namespace Dashboard
namespace OverviewChart

theorem effect_sockets {V : Type} (s : State V) :
    (effect s).sockets = ⟨s.sockets.length, s.selectedDate, s.selectedNode, true⟩ :: s.sockets := by
  unfold effect; split <;> rfl

theorem effect_mounted {V : Type} (s : State V) : (effect s).mounted = s.mounted := by
  unfold effect; split <;> rfl

theorem effect_selectedDate {V : Type} (s : State V) :
    (effect s).selectedDate = s.selectedDate := by
  unfold effect; split <;> rfl

theorem effect_selectedNode {V : Type} (s : State V) :
    (effect s).selectedNode = s.selectedNode := by
  unfold effect; split <;> rfl

theorem effect_sensorData {V : Type} (s : State V) :
    (effect s).sensorData = s.sensorData := by
  unfold effect; split <;> rfl

theorem effect_loading {V : Type} (s : State V) :
    (effect s).loading = (truthy s.selectedDate || truthy s.selectedNode || s.loading) := by
  unfold effect; split <;> rename_i h
  · simp [h]
  · have h2 : (truthy s.selectedDate || truthy s.selectedNode) = false := by simpa using h
    simp [h2]

theorem effect_trace {V : Type} (s : State V) :
    (effect s).trace = s.trace ++ Effect.connect s.sockets.length ::
      (if truthy s.selectedDate || truthy s.selectedNode then
        [Effect.emitGetDataByDate s.sockets.length s.selectedDate s.selectedNode] else []) := by
  unfold effect; split <;> simp

theorem cleanup_cons {V : Type} (s : State V) (k : Socket) (ks : List Socket)
    (h : s.sockets = k :: ks) :
    cleanup s = { s with sockets := { k with connected := false } :: ks
                         trace := s.trace ++ [Effect.disconnect k.id] } := by
  unfold cleanup; rw [h]

theorem connects_append (a b : List Effect) : connects (a ++ b) = connects a + connects b := by
  simp [connects]

theorem disconnects_append (a b : List Effect) :
    disconnects (a ++ b) = disconnects a + disconnects b := by
  simp [disconnects]

theorem connects_single (e : Effect) :
    connects [e] = match e with | .connect _ => 1 | _ => 0 := by
  cases e <;> rfl

theorem disconnects_single (e : Effect) :
    disconnects [e] = match e with | .disconnect _ => 1 | _ => 0 := by
  cases e <;> rfl

theorem connects_cons (e : Effect) (t : List Effect) :
    connects (e :: t) = connects [e] + connects t := by
  rw [← connects_append]; rfl

theorem disconnects_cons (e : Effect) (t : List Effect) :
    disconnects (e :: t) = disconnects [e] + disconnects t := by
  rw [← disconnects_append]; rfl

theorem inv_init {V : Type} : Inv (init : State V) := by
  refine ⟨⟨0, "", "ESP32-1", true⟩, [], ?_⟩
  simp [init, initialCells, effect, truthy, idsOk, connects, disconnects]

theorem inv_commit {V : Type} (s : State V) (date node : String) (hm : s.mounted = true)
    (h : Inv s) : Inv (commit s date node) := by
  unfold commit
  split
  · exact h
  · obtain ⟨k, ks, hs, hid, hc, hcap, hold, htr, hcon, hdis⟩ := h
    refine ⟨⟨ks.length + 1, date, node, true⟩, { k with connected := false } :: ks, ?_⟩
    simp only [idsOk] at hid
    rw [cleanup_cons { s with selectedDate := date, selectedNode := node } k ks hs]
    simp only [effect_sockets, effect_mounted, effect_selectedDate, effect_selectedNode,
      effect_trace]
    rw [hm] at htr hdis
    refine ⟨by simp, by simp [idsOk, hid], by simp [hm], by simp, by simpa using hold, ?_, ?_, ?_⟩
    · intro i
      have h1 := htr i
      by_cases hf : (truthy date || truthy node) = true
      · simp [hf, h1, hid.1, hm]; omega
      · simp [hf, h1, hid.1, hm]; omega
    · by_cases hf : (truthy date || truthy node) = true <;>
        simp [hf, connects_append, connects_cons _ (_ :: _), connects_single, hcon]
    · by_cases hf : (truthy date || truthy node) = true <;>
        simp [hf, disconnects_append, disconnects_cons _ (_ :: _), disconnects_single, hdis, hm]

theorem inv_unmount {V : Type} (s : State V) (hm : s.mounted = true)
    (h : Inv s) : Inv (unmount s) := by
  obtain ⟨k, ks, hs, hid, hc, hcap, hold, htr, hcon, hdis⟩ := h
  refine ⟨{ k with connected := false }, ks, ?_⟩
  simp only [idsOk] at hid
  unfold unmount
  rw [cleanup_cons _ k ks hs]
  rw [hm] at htr hdis
  refine ⟨by simp, by simp [idsOk, hid], by simp, by simp, by simpa using hold, ?_, ?_, ?_⟩
  · intro i
    have h1 := htr i
    simp [h1, hid.1]
  · simp [connects_append, hcon, connects_single]
  · simp [disconnects_append, hdis, disconnects_single]

theorem inv_congr {V : Type} (s t : State V) (h1 : t.sockets = s.sockets)
    (h2 : t.trace = s.trace) (h3 : t.mounted = s.mounted)
    (h4 : t.selectedDate = s.selectedDate) (h5 : t.selectedNode = s.selectedNode)
    (h : Inv s) : Inv t := by
  unfold Inv at *
  rw [h1, h2, h3, h4, h5]
  exact h

theorem onSensorDataUpdate_frame {V : Type} (k : Socket) (s : State V) (data : List (Reading V)) :
    (onSensorDataUpdate k s data).sockets = s.sockets ∧
    (onSensorDataUpdate k s data).trace = s.trace ∧
    (onSensorDataUpdate k s data).mounted = s.mounted ∧
    (onSensorDataUpdate k s data).selectedDate = s.selectedDate ∧
    (onSensorDataUpdate k s data).selectedNode = s.selectedNode := by
  unfold onSensorDataUpdate; split <;> simp

theorem onSensorDataByDate_frame {V : Type} (s : State V) (data : Payload V) :
    (onSensorDataByDate s data).sockets = s.sockets ∧
    (onSensorDataByDate s data).trace = s.trace ∧
    (onSensorDataByDate s data).mounted = s.mounted ∧
    (onSensorDataByDate s data).selectedDate = s.selectedDate ∧
    (onSensorDataByDate s data).selectedNode = s.selectedNode := by
  unfold onSensorDataByDate
  cases data.error <;> simp

theorem inv_deliver {V : Type} (s : State V) (sid : Nat) (f : Socket → State V → State V)
    (hf : ∀ k t, (f k t).sockets = t.sockets ∧ (f k t).trace = t.trace ∧
      (f k t).mounted = t.mounted ∧ (f k t).selectedDate = t.selectedDate ∧
      (f k t).selectedNode = t.selectedNode)
    (h : Inv s) : Inv (deliver s sid f) := by
  unfold deliver
  split
  · split
    · rename_i k _ _
      obtain ⟨a, b, c, d, e⟩ := hf k s
      exact inv_congr s _ a b c d e h
    · exact h
  · exact h

theorem inv_step {V : Type} (s : State V) (e : Event V) (h : Inv s) : Inv (step s e) := by
  cases e with
  | setSelectedDate v =>
    simp only [step]; split
    · rename_i hm; exact inv_commit s _ _ hm h
    · exact h
  | setSelectedNode v =>
    simp only [step]; split
    · rename_i hm; exact inv_commit s _ _ hm h
    · exact h
  | reset =>
    simp only [step]; split
    · rename_i hm; exact inv_commit s _ _ hm h
    · exact h
  | unmount =>
    simp only [step]; split
    · rename_i hm; exact inv_unmount s hm h
    · exact h
  | sensorDataUpdate sid data =>
    exact inv_deliver s sid (fun k t => onSensorDataUpdate k t data)
      (fun k t => onSensorDataUpdate_frame k t data) h
  | sensorDataByDate sid data =>
    exact inv_deliver s sid (fun _ t => onSensorDataByDate t data)
      (fun _ t => onSensorDataByDate_frame t data) h

theorem inv_foldl {V : Type} (evs : List (Event V)) (s : State V) (h : Inv s) :
    Inv (evs.foldl step s) := by
  induction evs generalizing s with
  | nil => exact h
  | cons e es ih => exact ih _ (inv_step s e h)

theorem inv_run {V : Type} (evs : List (Event V)) : Inv (run evs) :=
  inv_foldl evs _ inv_init

theorem connected_is_current {V : Type} (s : State V) (h : Inv s) (k : Socket)
    (hk : k ∈ s.sockets) (hc : k.connected = true) :
    s.mounted = true ∧ s.sockets.head? = some k ∧
      k.selectedDate = s.selectedDate ∧ k.selectedNode = s.selectedNode := by
  obtain ⟨k0, ks, hs, -, hc0, hcap, hold, -⟩ := h
  rw [hs] at hk ⊢
  rcases List.mem_cons.1 hk with rfl | hk
  · have hm : s.mounted = true := by rw [← hc0]; exact hc
    exact ⟨hm, rfl, hcap hm⟩
  · have := hold k hk
    rw [hc] at this
    exact absurd this (by decide)

theorem find_mem {V : Type} (s : State V) (sid : Nat) (k : Socket)
    (h : s.sockets.find? (fun k => k.id == sid) = some k) : k ∈ s.sockets ∧ k.id = sid := by
  refine ⟨List.mem_of_find?_eq_some h, ?_⟩
  have := List.find?_some h
  simpa using this

theorem find_current {V : Type} (s : State V) (h : Inv s) (k : Socket)
    (hk : k ∈ s.sockets) (hc : k.connected = true) :
    s.sockets.find? (fun j => j.id == k.id) = some k := by
  obtain ⟨-, hh, -⟩ := connected_is_current s h k hk hc
  cases hs : s.sockets with
  | nil => rw [hs] at hk; cases hk
  | cons a as =>
    rw [hs] at hh
    simp at hh
    subst hh
    simp

theorem step_trace_mono {V : Type} (s : State V) (e : Event V) (x : Effect)
    (hx : x ∈ s.trace) : x ∈ (step s e).trace := by
  have hcommit : ∀ d n, x ∈ (commit s d n).trace := by
    intro d n
    unfold commit
    split
    · exact hx
    · rw [effect_trace]
      unfold cleanup
      split <;> simp [hx]
  cases e with
  | setSelectedDate v => simp only [step]; split; exact hcommit _ _; exact hx
  | setSelectedNode v => simp only [step]; split; exact hcommit _ _; exact hx
  | reset => simp only [step]; split; exact hcommit _ _; exact hx
  | unmount =>
    simp only [step]; split
    · unfold unmount cleanup
      split <;> simp [hx]
    · exact hx
  | sensorDataUpdate sid data =>
    simp only [step, deliver]
    split
    · split
      · rw [(onSensorDataUpdate_frame _ s data).2.1]; exact hx
      · exact hx
    · exact hx
  | sensorDataByDate sid data =>
    simp only [step, deliver]
    split
    · split
      · rw [(onSensorDataByDate_frame s data).2.1]; exact hx
      · exact hx
    · exact hx

theorem foldl_trace_mono {V : Type} (evs : List (Event V)) (s : State V) (x : Effect)
    (hx : x ∈ s.trace) : x ∈ (evs.foldl step s).trace := by
  induction evs generalizing s with
  | nil => exact hx
  | cons e es ih => exact ih _ (step_trace_mono s e x hx)

theorem closed_not_connected {V : Type} (s : State V) (h : Inv s) (k : Socket)
    (hk : k ∈ s.sockets) (hd : Effect.disconnect k.id ∈ s.trace) : k.connected = false := by
  cases hc : k.connected with
  | false => rfl
  | true =>
    exfalso
    obtain ⟨hm, hh, -⟩ := connected_is_current s h k hk hc
    obtain ⟨k0, ks, hs, hid, -, -, -, htr, -⟩ := h
    rw [hs] at hh
    simp at hh
    subst hh
    have := (htr k0.id).1 hd
    simp only [idsOk] at hid
    rw [hm] at this
    simp at this
    omega

theorem deliver_closed {V : Type} (s : State V) (h : Inv s) (sid : Nat)
    (f : Socket → State V → State V) (hd : Effect.disconnect sid ∈ s.trace) :
    deliver s sid f = s := by
  unfold deliver
  split
  · rename_i k hf
    obtain ⟨hk, hid⟩ := find_mem s sid k hf
    rw [← hid] at hd
    rw [closed_not_connected s h k hk hd]
    simp
  · rfl

theorem liveFilter_spec {V : Type} (node : String) (data : List (Reading V)) :
    liveFilter node data = data.filter (fun d => decide (d.nodeId = node)) ∧
    (liveFilter node data).Sublist data ∧
    (∀ d, d ∈ liveFilter node data ↔ d ∈ data ∧ d.nodeId = node) ∧
    (∀ l : List (Reading V), l.Sublist data → (∀ d ∈ l, d.nodeId = node) →
      l.Sublist (liveFilter node data)) := by
  refine ⟨?_, ?_, ?_, ?_⟩
  · unfold liveFilter
    congr 1
  · exact List.filter_sublist data
  · intro d
    simp [liveFilter]
  · intro l hl hall
    have h1 : liveFilter node l = l := by
      unfold liveFilter
      rw [List.filter_eq_self]
      intro d hd
      simpa using hall d hd
    rw [← h1]
    exact hl.filter _

theorem balanced_nil : balanced [] := by
  intro p hp
  rw [List.prefix_nil] at hp
  subst hp
  simp [connects, disconnects]

theorem balanced_concat (t : List Effect) (e : Effect) (h : balanced t)
    (h1 : disconnects (t ++ [e]) ≤ connects (t ++ [e]))
    (h2 : connects (t ++ [e]) ≤ disconnects (t ++ [e]) + 1) : balanced (t ++ [e]) := by
  intro p hp
  rcases List.prefix_concat_iff.1 hp with rfl | hp
  · exact ⟨h1, h2⟩
  · exact h p hp

theorem openCount_eq {V : Type} (s : State V) (h : Inv s) :
    openCount s = (if s.mounted then 1 else 0) := by
  obtain ⟨k, ks, hs, -, hc, -, hold, -⟩ := h
  have hks : ks.filter (fun k => k.connected) = [] := by
    rw [List.filter_eq_nil_iff]
    intro j hj
    simp [hold j hj]
  unfold openCount
  rw [hs, List.filter_cons, hks, hc]
  cases s.mounted <;> simp

theorem mounted_counts {V : Type} (s : State V) (h : Inv s) (hm : s.mounted = true) :
    connects s.trace = disconnects s.trace + 1 := by
  obtain ⟨k, ks, -, -, -, -, -, -, hcon, hdis⟩ := h
  rw [hcon, hdis, hm]
  simp

theorem current_connected {V : Type} (s : State V) (h : Inv s) (hm : s.mounted = true) :
    ∃ k ks, s.sockets = k :: ks ∧ current s = some k ∧ k.connected = true ∧
      k.id = ks.length := by
  obtain ⟨k, ks, hs, hid, hc, -⟩ := h
  simp only [idsOk] at hid
  exact ⟨k, ks, hs, by simp [current, hs], by rw [hc, hm], hid.1⟩

theorem commit_trace_shape {V : Type} (s : State V) (h : Inv s) (hm : s.mounted = true)
    (date node : String) :
    (commit s date node).trace = s.trace ∨
    ∃ k, current s = some k ∧ k.connected = true ∧
      ∃ rest, (commit s date node).trace =
          s.trace ++ Effect.disconnect k.id :: Effect.connect (k.id + 1) :: rest ∧
        (rest = [] ∨ ∃ d n, rest = [Effect.emitGetDataByDate (k.id + 1) d n]) := by
  unfold commit
  split
  · left; rfl
  · right
    obtain ⟨k, ks, hs, hcur, hc, hid⟩ := current_connected s h hm
    refine ⟨k, hcur, hc, ?_⟩
    rw [cleanup_cons { s with selectedDate := date, selectedNode := node } k ks hs, effect_trace]
    by_cases hf : (truthy date || truthy node) = true
    · exact ⟨[Effect.emitGetDataByDate (k.id + 1) date node],
        by simp [hf, hid], Or.inr ⟨date, node, rfl⟩⟩
    · exact ⟨[], by simp [hf, hid], Or.inl rfl⟩

theorem unmount_trace {V : Type} (s : State V) (h : Inv s) (hm : s.mounted = true) :
    ∃ k, current s = some k ∧ k.connected = true ∧
      (step s Event.unmount).trace = s.trace ++ [Effect.disconnect k.id] := by
  obtain ⟨k, ks, hs, hcur, hc, -⟩ := current_connected s h hm
  refine ⟨k, hcur, hc, ?_⟩
  simp only [step, hm, if_true, unmount]
  rw [cleanup_cons s k ks hs]

theorem step_trace_shape {V : Type} (s : State V) (h : Inv s) (e : Event V) :
    (step s e).trace = s.trace ∨
    ∃ k, current s = some k ∧ k.connected = true ∧
      ((step s e).trace = s.trace ++ [Effect.disconnect k.id] ∨
        ∃ rest, (step s e).trace =
            s.trace ++ Effect.disconnect k.id :: Effect.connect (k.id + 1) :: rest ∧
          (rest = [] ∨ ∃ d n, rest = [Effect.emitGetDataByDate (k.id + 1) d n])) := by
  have hcommit : ∀ d n, s.mounted = true →
      ((commit s d n).trace = s.trace ∨
      ∃ k, current s = some k ∧ k.connected = true ∧
        ((commit s d n).trace = s.trace ++ [Effect.disconnect k.id] ∨
          ∃ rest, (commit s d n).trace =
              s.trace ++ Effect.disconnect k.id :: Effect.connect (k.id + 1) :: rest ∧
            (rest = [] ∨ ∃ d n, rest = [Effect.emitGetDataByDate (k.id + 1) d n]))) := by
    intro d n hm
    rcases commit_trace_shape s h hm d n with h1 | ⟨k, hk, hc, h2⟩
    · exact Or.inl h1
    · exact Or.inr ⟨k, hk, hc, Or.inr h2⟩
  cases e with
  | setSelectedDate v =>
    simp only [step]; split
    · rename_i hm; exact hcommit _ _ hm
    · left; rfl
  | setSelectedNode v =>
    simp only [step]; split
    · rename_i hm; exact hcommit _ _ hm
    · left; rfl
  | reset =>
    simp only [step]; split
    · rename_i hm; exact hcommit _ _ hm
    · left; rfl
  | unmount =>
    by_cases hm : s.mounted = true
    · obtain ⟨k, hk, hc, ht⟩ := unmount_trace s h hm
      exact Or.inr ⟨k, hk, hc, Or.inl ht⟩
    · left; simp [step, hm]
  | sensorDataUpdate sid data =>
    left
    simp only [step, deliver]
    split
    · split
      · exact (onSensorDataUpdate_frame _ s data).2.1
      · rfl
    · rfl
  | sensorDataByDate sid data =>
    left
    simp only [step, deliver]
    split
    · split
      · exact (onSensorDataByDate_frame s data).2.1
      · rfl
    · rfl

theorem balanced_step {V : Type} (s : State V) (h : Inv s) (hb : balanced s.trace)
    (e : Event V) : balanced (step s e).trace := by
  rcases step_trace_shape s h e with h0 | ⟨k, hk, hc, h1 | ⟨rest, h2, hrest⟩⟩
  · rw [h0]; exact hb
  all_goals
    have hm : s.mounted = true := by
      obtain ⟨k0, ks, hs, -, hc0, -⟩ := h
      have : k0 = k := by simpa [current, hs] using hk
      rw [← hc0, this]; exact hc
    have hcnt := mounted_counts s h hm
  · rw [h1]
    apply balanced_concat _ _ hb <;>
      simp [connects_append, disconnects_append, connects_cons _ (_ :: _),
          disconnects_cons _ (_ :: _), connects_single, disconnects_single] <;>
      omega
  · have b1 : balanced (s.trace ++ [Effect.disconnect k.id]) := by
      apply balanced_concat _ _ hb <;>
        simp [connects_append, disconnects_append, connects_cons _ (_ :: _),
          disconnects_cons _ (_ :: _), connects_single, disconnects_single] <;>
        omega
    have b2 : balanced ((s.trace ++ [Effect.disconnect k.id]) ++ [Effect.connect (k.id + 1)]) := by
      apply balanced_concat _ _ b1 <;>
        simp [connects_append, disconnects_append, connects_cons _ (_ :: _),
          disconnects_cons _ (_ :: _), connects_single, disconnects_single] <;>
        omega
    rcases hrest with rfl | ⟨d, n, rfl⟩
    · rw [h2]
      simpa using b2
    · have b3 : balanced (((s.trace ++ [Effect.disconnect k.id]) ++
          [Effect.connect (k.id + 1)]) ++ [Effect.emitGetDataByDate (k.id + 1) d n]) := by
        apply balanced_concat _ _ b2 <;>
          simp [connects_append, disconnects_append, connects_cons _ (_ :: _),
          disconnects_cons _ (_ :: _), connects_single, disconnects_single] <;>
          omega
      rw [h2]
      simpa using b3

theorem balanced_init {V : Type} : balanced (init : State V).trace := by
  have h : (init : State V).trace =
      ([] ++ [Effect.connect 0]) ++ [Effect.emitGetDataByDate 0 "" "ESP32-1"] := by
    simp [init, initialCells, effect, truthy]
  rw [h]
  apply balanced_concat
  · apply balanced_concat _ _ balanced_nil <;> simp [connects, disconnects]
  · simp [connects, disconnects]
  · simp [connects, disconnects]

theorem balanced_foldl {V : Type} (evs : List (Event V)) (s : State V) (h : Inv s)
    (hb : balanced s.trace) : balanced (evs.foldl step s).trace := by
  induction evs generalizing s with
  | nil => exact hb
  | cons e es ih => exact ih _ (inv_step s e h) (balanced_step s h hb e)

theorem step_unmounted {V : Type} (s : State V) (e : Event V) (hm : s.mounted = false) :
    (step s e).mounted = false := by
  cases e with
  | setSelectedDate v => simp [step, hm]
  | setSelectedNode v => simp [step, hm]
  | reset => simp [step, hm]
  | unmount => simp [step, hm]
  | sensorDataUpdate sid data =>
    simp only [step, deliver]
    split
    · split
      · rw [(onSensorDataUpdate_frame _ s data).2.2.1]; exact hm
      · exact hm
    · exact hm
  | sensorDataByDate sid data =>
    simp only [step, deliver]
    split
    · split
      · rw [(onSensorDataByDate_frame s data).2.2.1]; exact hm
      · exact hm
    · exact hm

theorem foldl_unmounted {V : Type} (evs : List (Event V)) (s : State V)
    (hm : s.mounted = false) : (evs.foldl step s).mounted = false := by
  induction evs generalizing s with
  | nil => exact hm
  | cons e es ih => exact ih _ (step_unmounted s e hm)

theorem unmount_step_unmounted {V : Type} (s : State V) :
    (step s Event.unmount).mounted = false := by
  cases hm : s.mounted with
  | false => simp [step, hm]
  | true =>
    simp only [step, hm, if_true, unmount]

/-! ## The claims about `OverviewChart` -/

/-- C1: in live mode (selected date empty) a `sensorDataUpdate` batch delivered
to the open session replaces `sensorData` by exactly the entries of the batch
whose `nodeId` is the selected node, in batch order: the result is the
`filter` of the batch, a sublist of it, contains precisely the matching
entries, and every matching sublist of the batch is a sublist of it.  The
result does not mention the previous `sensorData`; loading and the filter
cells are untouched. -/
theorem live_update_is_exact_filter {V : Type} (evs : List (Event V)) (k : Socket)
    (data : List (Reading V)) (hk : k ∈ (run evs).sockets) (hc : k.connected = true)
    (hd : (run evs).selectedDate = "") :
    ∃ rs, (step (run evs) (Event.sensorDataUpdate k.id data)).sensorData = Payload.array rs ∧
      rs = data.filter (fun d => decide (d.nodeId = (run evs).selectedNode)) ∧
      rs.Sublist data ∧
      (∀ d, d ∈ rs ↔ d ∈ data ∧ d.nodeId = (run evs).selectedNode) ∧
      (∀ l : List (Reading V), l.Sublist data →
        (∀ d ∈ l, d.nodeId = (run evs).selectedNode) → l.Sublist rs) ∧
      (step (run evs) (Event.sensorDataUpdate k.id data)).loading = (run evs).loading ∧
      (step (run evs) (Event.sensorDataUpdate k.id data)).selectedDate = "" ∧
      (step (run evs) (Event.sensorDataUpdate k.id data)).selectedNode =
        (run evs).selectedNode := by
  have hinv := inv_run evs
  obtain ⟨-, -, hcd, hcn⟩ := connected_is_current _ hinv k hk hc
  have hfind := find_current _ hinv k hk hc
  obtain ⟨h1, h2, h3, h4⟩ := liveFilter_spec (run evs).selectedNode data
  refine ⟨liveFilter (run evs).selectedNode data, ?_, h1, h2, h3, h4, ?_, ?_, ?_⟩ <;>
    simp [step, deliver, hfind, hc, onSensorDataUpdate, hcd, hcn, hd, truthy]

/-- C1 at a concrete run: a historical-style reply fills `sensorData`, the node
is switched to "ESP32-2", and a mixed batch arrives on the open socket 1. -/
theorem live_update_is_exact_filter_witness :
    ((⟨1, "", "ESP32-2", true⟩ : Socket) ∈
        (run [Event.sensorDataByDate 0 (Payload.array [(⟨"ESP32-1", 9, 9, 9, 9⟩ : Reading Nat)]),
          Event.setSelectedNode "ESP32-2"]).sockets ∧
      (run [Event.sensorDataByDate 0 (Payload.array [(⟨"ESP32-1", 9, 9, 9, 9⟩ : Reading Nat)]),
          Event.setSelectedNode "ESP32-2"]).selectedDate = "") ∧
    (step
        (run [Event.sensorDataByDate 0 (Payload.array [(⟨"ESP32-1", 9, 9, 9, 9⟩ : Reading Nat)]),
          Event.setSelectedNode "ESP32-2"])
        (Event.sensorDataUpdate 1
          [⟨"ESP32-2", 1, 20, 50, 400⟩, ⟨"ESP32-1", 2, 21, 51, 401⟩,
            ⟨"ESP32-2", 3, 22, 52, 402⟩])).sensorData =
      Payload.array [⟨"ESP32-2", 1, 20, 50, 400⟩, ⟨"ESP32-2", 3, 22, 52, 402⟩] := by
  refine ⟨by decide, ?_⟩
  obtain ⟨rs, h1, h2, -⟩ :=
    live_update_is_exact_filter
      [Event.sensorDataByDate 0 (Payload.array [(⟨"ESP32-1", 9, 9, 9, 9⟩ : Reading Nat)]),
        Event.setSelectedNode "ESP32-2"]
      ⟨1, "", "ESP32-2", true⟩
      [⟨"ESP32-2", 1, 20, 50, 400⟩, ⟨"ESP32-1", 2, 21, 51, 401⟩, ⟨"ESP32-2", 3, 22, 52, 402⟩]
      (by decide) rfl (by decide)
  rw [h1, h2]
  decide

/-- C2: a `sensorDataByDate` payload delivered to the open session always
leaves loading false; without an error indicator `sensorData` becomes the
payload itself, with one it keeps its previous value. -/
theorem historical_response_handling {V : Type} (evs : List (Event V)) (k : Socket)
    (data : Payload V) (hk : k ∈ (run evs).sockets) (hc : k.connected = true) :
    (step (run evs) (Event.sensorDataByDate k.id data)).loading = false ∧
    (data.error = false →
      (step (run evs) (Event.sensorDataByDate k.id data)).sensorData = data) ∧
    (data.error = true →
      (step (run evs) (Event.sensorDataByDate k.id data)).sensorData =
        (run evs).sensorData) := by
  have hinv := inv_run evs
  have hfind := find_current _ hinv k hk hc
  refine ⟨?_, ?_, ?_⟩
  · simp [step, deliver, hfind, hc, onSensorDataByDate]
  · intro he
    simp [step, deliver, hfind, hc, onSensorDataByDate, he]
  · intro he
    simp [step, deliver, hfind, hc, onSensorDataByDate, he]

/-- C2 at a concrete run: the date "2024-01-01" is selected for "ESP32-1" and
a successful one-record reply arrives on the open socket 1. -/
theorem historical_response_handling_witness :
    ((⟨1, "2024-01-01", "ESP32-1", true⟩ : Socket) ∈
        (run ([Event.setSelectedDate "2024-01-01"] : List (Event Nat))).sockets ∧
      (run ([Event.setSelectedDate "2024-01-01"] : List (Event Nat))).loading = true) ∧
    (step (run [Event.setSelectedDate "2024-01-01"])
        (Event.sensorDataByDate 1
          (Payload.array [(⟨"ESP32-1", 7, 20, 50, 400⟩ : Reading Nat)]))).loading = false ∧
    (step (run [Event.setSelectedDate "2024-01-01"])
        (Event.sensorDataByDate 1
          (Payload.array [(⟨"ESP32-1", 7, 20, 50, 400⟩ : Reading Nat)]))).sensorData =
      Payload.array [⟨"ESP32-1", 7, 20, 50, 400⟩] :=
  ⟨by decide,
    (historical_response_handling [Event.setSelectedDate "2024-01-01"]
      ⟨1, "2024-01-01", "ESP32-1", true⟩
      (Payload.array [(⟨"ESP32-1", 7, 20, 50, 400⟩ : Reading Nat)]) (by decide) rfl).1,
    (historical_response_handling [Event.setSelectedDate "2024-01-01"]
      ⟨1, "2024-01-01", "ESP32-1", true⟩
      (Payload.array [(⟨"ESP32-1", 7, 20, 50, 400⟩ : Reading Nat)]) (by decide) rfl).2.1 rfl⟩

/-- C3: once `socket.disconnect()` has been called on session `sid`, then at
any later time (after any further events) a `sensorDataByDate` response or a
`sensorDataUpdate` broadcast arriving on `sid` leaves the whole state, and so
`sensorData` and loading, unchanged. -/
theorem closed_session_delivery_is_ignored {V : Type} (evs later : List (Event V)) (sid : Nat)
    (h : Effect.disconnect sid ∈ (run evs).trace) :
    (∀ data : Payload V,
      step (run (evs ++ later)) (Event.sensorDataByDate sid data) = run (evs ++ later)) ∧
    (∀ batch : List (Reading V),
      step (run (evs ++ later)) (Event.sensorDataUpdate sid batch) = run (evs ++ later)) := by
  have hinv := inv_run (evs ++ later)
  have hd : Effect.disconnect sid ∈ (run (evs ++ later)).trace := by
    unfold run
    rw [List.foldl_append]
    exact foldl_trace_mono later _ _ h
  exact ⟨fun data => deliver_closed _ hinv sid (fun _ t => onSensorDataByDate t data) hd,
    fun batch => deliver_closed _ hinv sid (fun k t => onSensorDataUpdate k t batch) hd⟩

/-- C3 at a concrete run: session 0 is opened at mount and closed when the node
changes, session 1 is opened and receives its reply; a reply tagged with
session 0 then changes nothing. -/
theorem closed_session_delivery_is_ignored_witness :
    Effect.disconnect 0 ∈
      (run ([Event.setSelectedNode "ESP32-2"] : List (Event Nat))).trace ∧
    step
        (run ([Event.setSelectedNode "ESP32-2"] ++
          [Event.sensorDataByDate 1 (Payload.array [(⟨"ESP32-2", 5, 25, 55, 405⟩ : Reading Nat)])]))
        (Event.sensorDataByDate 0 (Payload.array [(⟨"ESP32-1", 4, 24, 54, 404⟩ : Reading Nat)])) =
      run ([Event.setSelectedNode "ESP32-2"] ++
          [Event.sensorDataByDate 1 (Payload.array [(⟨"ESP32-2", 5, 25, 55, 405⟩ : Reading Nat)])]) :=
  ⟨by decide,
    (closed_session_delivery_is_ignored [Event.setSelectedNode "ESP32-2"]
      [Event.sensorDataByDate 1 (Payload.array [(⟨"ESP32-2", 5, 25, 55, 405⟩ : Reading Nat)])]
      0 (by decide)).1 _⟩

/-- C4: after the first mount and any sequence of date edits, node edits,
resets, unmount and deliveries, at most one socket is connected (exactly one
while mounted, none otherwise), and `io()` calls = `disconnect()` calls + open
sockets.  The same holds at every instant inside the call sequence: after
every prefix of the trace, `disconnect()` calls ≤ `io()` calls ≤
`disconnect()` calls + 1.  Every event either makes no transport call, or
only disconnects the currently open socket, or first disconnects the
currently open socket and then opens the next one (followed at most by its
`getDataByDate` emit).  Unmount, when a socket is open, disconnects that
socket; and after an unmount no socket is open, whatever happens later. -/
theorem at_most_one_open_session {V : Type} (evs : List (Event V)) :
    openCount (run evs) ≤ 1 ∧
    openCount (run evs) = (if (run evs).mounted then 1 else 0) ∧
    connects (run evs).trace = disconnects (run evs).trace + openCount (run evs) ∧
    (∀ p, p <+: (run evs).trace →
      disconnects p ≤ connects p ∧ connects p ≤ disconnects p + 1) ∧
    (∀ e : Event V,
      (step (run evs) e).trace = (run evs).trace ∨
      ∃ k, current (run evs) = some k ∧ k.connected = true ∧
        ((step (run evs) e).trace = (run evs).trace ++ [Effect.disconnect k.id] ∨
          ∃ rest, (step (run evs) e).trace =
              (run evs).trace ++ Effect.disconnect k.id :: Effect.connect (k.id + 1) :: rest ∧
            (rest = [] ∨ ∃ d n, rest = [Effect.emitGetDataByDate (k.id + 1) d n]))) ∧
    (openCount (run evs) = 1 →
      ∃ k, current (run evs) = some k ∧ k.connected = true ∧
        (step (run evs) Event.unmount).trace = (run evs).trace ++ [Effect.disconnect k.id] ∧
        openCount (step (run evs) Event.unmount) = 0) ∧
    (∀ later : List (Event V), openCount (run (evs ++ Event.unmount :: later)) = 0) := by
  have hinv := inv_run evs
  have hcount := openCount_eq _ hinv
  refine ⟨?_, hcount, ?_, ?_, ?_, ?_, ?_⟩
  · rw [hcount]; split <;> omega
  · obtain ⟨k, ks, -, -, -, -, -, -, hcon, hdis⟩ := hinv
    rw [hcon, hdis, hcount]; split <;> omega
  · exact balanced_foldl evs _ inv_init balanced_init
  · exact step_trace_shape _ hinv
  · intro hone
    have hm : (run evs).mounted = true := by
      rw [hcount] at hone
      by_contra hne
      simp [hne] at hone
    obtain ⟨k, hk, hc, ht⟩ := unmount_trace _ hinv hm
    refine ⟨k, hk, hc, ht, ?_⟩
    rw [openCount_eq _ (inv_step _ Event.unmount hinv), unmount_step_unmounted]
    simp
  · intro later
    have hm : (run (evs ++ Event.unmount :: later)).mounted = false := by
      unfold run
      rw [List.foldl_append, List.foldl_cons]
      exact foldl_unmounted later _ (unmount_step_unmounted _)
    rw [openCount_eq _ (inv_run _), hm]
    simp

/-- C4 at a concrete run: a date is selected and then Reset is pressed, so
sockets 0 and 1 have been closed and socket 2 is open; unmounting disconnects
socket 2 and nothing is open afterwards, also after a late reply. -/
theorem at_most_one_open_session_witness :
    openCount (run ([Event.setSelectedDate "2024-01-01", Event.reset] : List (Event Nat))) = 1 ∧
    (step (run ([Event.setSelectedDate "2024-01-01", Event.reset] : List (Event Nat)))
        Event.unmount).trace =
      (run ([Event.setSelectedDate "2024-01-01", Event.reset] : List (Event Nat))).trace ++
        [Effect.disconnect 2] ∧
    openCount (run (([Event.setSelectedDate "2024-01-01", Event.reset] : List (Event Nat)) ++
      Event.unmount :: [Event.sensorDataByDate 2 (Payload.array [])])) = 0 := by
  have h := at_most_one_open_session
    ([Event.setSelectedDate "2024-01-01", Event.reset] : List (Event Nat))
  refine ⟨by decide, ?_, h.2.2.2.2.2.2 _⟩
  obtain ⟨k, hk, -, ht, -⟩ := h.2.2.2.2.2.1 (by decide)
  have hk2 : k = ⟨2, "", "ESP32-1", true⟩ := by
    have : current (run ([Event.setSelectedDate "2024-01-01", Event.reset] :
        List (Event Nat))) = some ⟨2, "", "ESP32-1", true⟩ := by decide
    rw [this] at hk
    exact (Option.some.inj hk).symm
  rw [ht, hk2]

/-- C5 (as stated) fails: in the freshly mounted chart the filter is already
the default, and Reset records no `disconnect` and no `connect`. -/
theorem reset_at_default_filter_opens_nothing :
    (run ([] : List (Event Nat))).mounted = true ∧
    (run ([] : List (Event Nat))).selectedDate = "" ∧
    (run ([] : List (Event Nat))).selectedNode = "ESP32-1" ∧
    ¬ (disconnects (step (run ([] : List (Event Nat))) Event.reset).trace =
        disconnects (run ([] : List (Event Nat))).trace + 1) ∧
    ¬ (connects (step (run ([] : List (Event Nat))) Event.reset).trace =
        connects (run ([] : List (Event Nat))).trace + 1) := by
  decide

/-- C5 (amended): Reset on a mounted chart always yields the filter
`{nodeId: "ESP32-1", date: ""}`.  If the filter was already that, nothing
else happens (the state is unchanged: no close, no open).  Otherwise the
transport calls are exactly: `disconnect` on the open session, `io()` for a
new one, and its `getDataByDate` emit; so one close, one open, and one
session open afterwards. -/
theorem reset_yields_default_filter {V : Type} (evs : List (Event V))
    (hm : (run evs).mounted = true) :
    (step (run evs) Event.reset).selectedDate = "" ∧
    (step (run evs) Event.reset).selectedNode = "ESP32-1" ∧
    (((run evs).selectedDate = "" ∧ (run evs).selectedNode = "ESP32-1") →
      step (run evs) Event.reset = run evs) ∧
    (¬ ((run evs).selectedDate = "" ∧ (run evs).selectedNode = "ESP32-1") →
      ∃ k, current (run evs) = some k ∧ k.connected = true ∧
        (step (run evs) Event.reset).trace =
          (run evs).trace ++ [Effect.disconnect k.id, Effect.connect (k.id + 1),
            Effect.emitGetDataByDate (k.id + 1) "" "ESP32-1"] ∧
        disconnects (step (run evs) Event.reset).trace = disconnects (run evs).trace + 1 ∧
        connects (step (run evs) Event.reset).trace = connects (run evs).trace + 1 ∧
        openCount (step (run evs) Event.reset) = 1) := by
  obtain ⟨k, ks, hs, hid, hc, -, hold, -⟩ := inv_run evs
  simp only [idsOk] at hid
  have hks : ks.filter (fun k => k.connected) = [] := by
    rw [List.filter_eq_nil_iff]
    intro j hj
    simp [hold j hj]
  have hstep : step (run evs) Event.reset = commit (run evs) "" "ESP32-1" := by
    simp [step, hm, reset]
  rw [hstep]
  unfold commit
  by_cases hdef : (run evs).selectedDate = "" ∧ (run evs).selectedNode = "ESP32-1"
  · have hdef2 : "" = (run evs).selectedDate ∧ "ESP32-1" = (run evs).selectedNode :=
      ⟨hdef.1.symm, hdef.2.symm⟩
    rw [if_pos hdef2]
    exact ⟨hdef.1, hdef.2, fun _ => rfl, fun h => absurd hdef h⟩
  · have hdef2 : ¬ ("" = (run evs).selectedDate ∧ "ESP32-1" = (run evs).selectedNode) :=
      fun h => hdef ⟨h.1.symm, h.2.symm⟩
    rw [if_neg hdef2]
    rw [cleanup_cons { run evs with selectedDate := "", selectedNode := "ESP32-1" } k ks hs]
    have ht : (truthy "" || truthy "ESP32-1") = true := by decide
    refine ⟨by rw [effect_selectedDate], by rw [effect_selectedNode], fun h => absurd h hdef,
      fun _ => ⟨k, ?_, ?_, ?_, ?_, ?_, ?_⟩⟩
    · simp [current, hs]
    · rw [hc, hm]
    · rw [effect_trace]
      simp [ht, hid.1]
    · rw [effect_trace]
      simp [ht, disconnects_append, disconnects_cons _ (_ :: _), disconnects_single]
    · rw [effect_trace]
      simp [ht, connects_append, connects_cons _ (_ :: _), connects_single]
    · unfold openCount
      rw [effect_sockets]
      simp [List.filter_cons, hks]

/-- C5 (amended) at a concrete run: with the date "2024-01-01" selected, Reset
restores the default filter and closes and opens one session. -/
theorem reset_yields_default_filter_witness :
    (run ([Event.setSelectedDate "2024-01-01"] : List (Event Nat))).mounted = true ∧
    (step (run ([Event.setSelectedDate "2024-01-01"] : List (Event Nat)))
      Event.reset).selectedDate = "" ∧
    (step (run ([Event.setSelectedDate "2024-01-01"] : List (Event Nat)))
      Event.reset).selectedNode = "ESP32-1" ∧
    (step (run ([Event.setSelectedDate "2024-01-01"] : List (Event Nat))) Event.reset).trace =
      (run ([Event.setSelectedDate "2024-01-01"] : List (Event Nat))).trace ++
        [Effect.disconnect 1, Effect.connect 2, Effect.emitGetDataByDate 2 "" "ESP32-1"] := by
  have h := reset_yields_default_filter
    ([Event.setSelectedDate "2024-01-01"] : List (Event Nat)) (by decide)
  refine ⟨by decide, h.1, h.2.1, ?_⟩
  obtain ⟨k, hk, -, ht, -⟩ := h.2.2.2 (by decide)
  have hk1 : k = ⟨1, "2024-01-01", "ESP32-1", true⟩ := by
    have : current (run ([Event.setSelectedDate "2024-01-01"] : List (Event Nat))) =
        some ⟨1, "2024-01-01", "ESP32-1", true⟩ := by decide
    rw [this] at hk
    exact (Option.some.inj hk).symm
  rw [ht, hk1]

/-- C6 (as stated) fails: at the first mount the date is empty and the node is
the valid "ESP32-1", yet the effect sets loading and emits `getDataByDate`
(with the empty date). -/
theorem live_mode_open_sets_loading :
    (initialCells : State Nat).selectedDate = "" ∧
    (initialCells : State Nat).selectedNode = "ESP32-1" ∧
    (initialCells : State Nat).loading = false ∧
    ¬ ((effect (initialCells : State Nat)).loading = false) ∧
    Effect.emitGetDataByDate 0 "" "ESP32-1" ∈ (effect (initialCells : State Nat)).trace := by
  decide

/-- C6 (amended): opening the session for a filter sets loading and emits
`getDataByDate` carrying `{date, nodeId}` exactly when the date or the nodeId
is non-empty; in particular, in live mode with a non-empty nodeId loading
becomes true and the query is emitted with the empty date.  Only when both
are empty is loading left as it was and nothing emitted. -/
theorem open_session_loading_and_query {V : Type} (s : State V) :
    (effect s).loading = (if s.selectedDate ≠ "" ∨ s.selectedNode ≠ "" then true else s.loading) ∧
    (effect s).trace = s.trace ++ Effect.connect s.sockets.length ::
      (if s.selectedDate ≠ "" ∨ s.selectedNode ≠ "" then
        [Effect.emitGetDataByDate s.sockets.length s.selectedDate s.selectedNode] else []) := by
  rw [effect_loading, effect_trace]
  by_cases h : s.selectedDate ≠ "" ∨ s.selectedNode ≠ ""
  · have ht : (truthy s.selectedDate || truthy s.selectedNode) = true := by
      simpa [truthy] using h
    simp [ht, h]
  · have ht : (truthy s.selectedDate || truthy s.selectedNode) = false := by
      simp only [not_or, not_not] at h
      simp [truthy, h.1, h.2]
    rw [if_neg h, if_neg h, ht]
    simp

/-- C10: while the selected date is non-empty (historical mode), a
`sensorDataUpdate` broadcast arriving on any socket leaves the whole state
(`sensorData`, loading, the filter cells) unchanged. -/
theorem broadcast_ignored_in_historical_mode {V : Type} (evs : List (Event V)) (sid : Nat)
    (batch : List (Reading V)) (hd : (run evs).selectedDate ≠ "") :
    step (run evs) (Event.sensorDataUpdate sid batch) = run evs := by
  have hinv := inv_run evs
  simp only [step, deliver]
  split
  · rename_i k hf
    split
    · rename_i hc
      obtain ⟨hk, -⟩ := find_mem _ sid k hf
      obtain ⟨-, -, hcd, -⟩ := connected_is_current _ hinv k hk hc
      simp [onSensorDataUpdate, truthy, hcd, hd]
    · rfl
  · rfl

/-- C10 at a concrete run: with the date "2024-01-01" selected, a broadcast
on the open socket 1 changes nothing. -/
theorem broadcast_ignored_in_historical_mode_witness :
    (run ([Event.setSelectedDate "2024-01-01"] : List (Event Nat))).selectedDate ≠ "" ∧
    step (run [Event.setSelectedDate "2024-01-01"])
        (Event.sensorDataUpdate 1 [(⟨"ESP32-1", 7, 20, 50, 400⟩ : Reading Nat)]) =
      run [Event.setSelectedDate "2024-01-01"] :=
  ⟨by decide,
    broadcast_ignored_in_historical_mode [Event.setSelectedDate "2024-01-01"] 1
      [(⟨"ESP32-1", 7, 20, 50, 400⟩ : Reading Nat)] (by decide)⟩

end OverviewChart

/-- C9: the live-mode node filter is idempotent: filtering an already
filtered batch by the same node gives the same sequence. -/
theorem liveFilter_idempotent {V : Type} (selectedNode : String) (batch : List (Reading V)) :
    liveFilter selectedNode (liveFilter selectedNode batch) = liveFilter selectedNode batch := by
  unfold liveFilter
  rw [List.filter_filter]
  congr 1
  funext d
  simp

end Dashboard

/-! ## Lifecycle invariant of the page -/

namespace Dashboard
namespace OverviewPage

theorem resolve_frame {V : Type} (toStr : V → String) (s : State V) (r : FetchResult V) :
    (resolve toStr s r).timers = s.timers ∧ (resolve toStr s r).fetches = s.fetches ∧
    (resolve toStr s r).mounted = s.mounted ∧ (resolve toStr s r).nodeId = s.nodeId := by
  cases r with
  | networkError => simp [resolve]
  | parseError => simp [resolve]
  | ok data =>
    cases data with
    | nil => simp [resolve]
    | cons a as => simp [resolve]

theorem resolve_latest {V : Type} (toStr : V → String) (s : State V) (r : FetchResult V) :
    (resolve toStr s r).latestSensorData =
      match r with
      | .ok (latest :: _) =>
        { temperature := toStr latest.temperature ++ "°C"
          humidity := toStr latest.humidity ++ "%"
          co2 := toStr latest.co2 ++ " ppm" }
      | _ => s.latestSensorData := by
  cases r with
  | networkError => simp [resolve]
  | parseError => simp [resolve]
  | ok data =>
    cases data with
    | nil => simp [resolve]
    | cons a as => simp [resolve]

theorem fetchIdsOk_settle (fid : Nat) (fs : List Fetch) (h : fetchIdsOk fs) :
    fetchIdsOk (settle fid fs) := by
  induction fs with
  | nil => simpa [settle] using h
  | cons a as ih =>
    obtain ⟨h1, h2⟩ := h
    have ih2 := ih h2
    unfold settle at ih2 ⊢
    rw [List.map_cons]
    refine ⟨?_, ih2⟩
    rw [List.length_map]
    split <;> simpa using h1

theorem fetchIdsOk_lt (fs : List Fetch) (h : fetchIdsOk fs) (f : Fetch) (hf : f ∈ fs) :
    f.id < fs.length := by
  induction fs with
  | nil => cases hf
  | cons a as ih =>
    obtain ⟨h1, h2⟩ := h
    rcases List.mem_cons.1 hf with rfl | hf
    · simp [h1]
    · have := ih h2 hf
      simp only [List.length_cons]
      omega

theorem fetchIdsOk_find (fs : List Fetch) (h : fetchIdsOk fs) (f : Fetch) (hf : f ∈ fs) :
    fs.find? (fun g => g.id == f.id) = some f := by
  induction fs with
  | nil => cases hf
  | cons a as ih =>
    obtain ⟨h1, h2⟩ := h
    rcases List.mem_cons.1 hf with rfl | hf
    · simp
    · have hlt := fetchIdsOk_lt as h2 f hf
      have hne : (a.id == f.id) = false := by
        simp only [beq_eq_false_iff_ne, ne_eq]
        omega
      rw [List.find?_cons, hne]
      exact ih h2 hf

theorem page_inv_init {V : Type} : Inv (init : State V) := by
  refine ⟨⟨⟨0, "ESP32-1", true⟩, [], ?_⟩, ?_⟩ <;>
    simp [init, effect, fetchSensorData, fetchIdsOk]

theorem page_inv_setNodeId {V : Type} (s : State V) (v : String) (hm : s.mounted = true)
    (h : Inv s) : Inv (setNodeId s v) := by
  unfold setNodeId
  split
  · exact h
  · obtain ⟨⟨t, ts, hs, hid, -, -, hold⟩, hf⟩ := h
    refine ⟨⟨⟨ts.length + 1, v, true⟩, { t with active := false } :: ts, ?_⟩, ?_⟩
    · simp [effect, cleanup, hs, fetchSensorData, hm]
      exact hold
    · simp [effect, cleanup, hs, fetchSensorData, fetchIdsOk, hf]

theorem page_inv_unmount {V : Type} (s : State V) (h : Inv s) : Inv (unmount s) := by
  obtain ⟨⟨t, ts, hs, hid, -, hn, hold⟩, hf⟩ := h
  refine ⟨⟨{ t with active := false }, ts, ?_⟩, ?_⟩
  · simp [unmount, cleanup, hs, hid, hn]
    exact hold
  · simpa [unmount, cleanup, hs] using hf

theorem page_inv_step {V : Type} (toStr : V → String) (s : State V) (e : Event V) (h : Inv s) :
    Inv (step toStr s e) := by
  cases e with
  | setNodeId v =>
    simp only [step]; split
    · rename_i hm; exact page_inv_setNodeId s v hm h
    · exact h
  | unmount =>
    simp only [step]; split
    · exact page_inv_unmount s h
    · exact h
  | tick tid =>
    simp only [step]
    split
    · split
      · obtain ⟨ht, hf⟩ := h
        exact ⟨ht, by simp [fetchSensorData, fetchIdsOk, hf]⟩
      · exact h
    · exact h
  | fetchDone fid result =>
    simp only [step]
    split
    · split
      · obtain ⟨ht, hf⟩ := h
        have hf2 := fetchIdsOk_settle fid s.fetches hf
        split
        · obtain ⟨a, b, c, d⟩ := resolve_frame toStr { s with fetches := settle fid s.fetches } result
          unfold Inv
          rw [a, b, c, d]
          exact ⟨ht, hf2⟩
        · exact ⟨ht, hf2⟩
      · exact h
    · exact h

theorem page_inv_foldl {V : Type} (toStr : V → String) (evs : List (Event V)) (s : State V)
    (h : Inv s) : Inv (evs.foldl (step toStr) s) := by
  induction evs generalizing s with
  | nil => exact h
  | cons e es ih => exact ih _ (page_inv_step toStr s e h)

theorem page_inv_run {V : Type} (toStr : V → String) (evs : List (Event V)) :
    Inv (run toStr evs) :=
  page_inv_foldl toStr evs _ page_inv_init

theorem fetchDone_latest {V : Type} (toStr : V → String) (s : State V) (h : Inv s)
    (f : Fetch) (hf : f ∈ s.fetches) (hp : f.pending = true) (hm : s.mounted = true)
    (r : FetchResult V) :
    (step toStr s (Event.fetchDone f.id r)).latestSensorData =
      match r with
      | .ok (latest :: _) =>
        { temperature := toStr latest.temperature ++ "°C"
          humidity := toStr latest.humidity ++ "%"
          co2 := toStr latest.co2 ++ " ppm" }
      | _ => s.latestSensorData := by
  have hfind := fetchIdsOk_find s.fetches h.2 f hf
  simp only [step, hfind, hp, hm, if_true]
  rw [resolve_latest]

theorem tick_current {V : Type} (toStr : V → String) (s : State V) (h : Inv s) (tid : Nat) :
    step toStr s (Event.tick tid) = s ∨
      step toStr s (Event.tick tid) = fetchSensorData s.nodeId s := by
  obtain ⟨⟨t, ts, hs, -, -, hn, hold⟩, -⟩ := h
  simp only [step]
  split
  · rename_i t1 hfind
    split
    · rename_i hact
      right
      have hmem : t1 ∈ t :: ts := by
        rw [← hs]; exact List.mem_of_find?_eq_some hfind
      rcases List.mem_cons.1 hmem with rfl | hmem
      · rw [hn]
      · have := hold t1 hmem
        rw [hact] at this
        exact absurd this (by decide)
    · left; rfl
  · left; rfl

/-! ## The claims about `OverviewPage` -/

/-- C7: when a pending request of the mounted page settles, a success with a
non-empty array sets `latestSensorData` to the temperature, humidity and co2
of `data[0]` with the suffixes "°C", "%" and " ppm"; a success with an empty
array, a network error and a parse error each leave it at its previous value.
That value is the "Loading..." record at mount and stays so as long as no
request has succeeded with a non-empty array. -/
theorem summary_derivation {V : Type} (toStr : V → String) (evs : List (Event V)) (f : Fetch)
    (hf : f ∈ (run toStr evs).fetches) (hp : f.pending = true)
    (hm : (run toStr evs).mounted = true) :
    (∀ (latest : Reading V) (rest : List (Reading V)),
      (step toStr (run toStr evs)
          (Event.fetchDone f.id (FetchResult.ok (latest :: rest)))).latestSensorData =
        { temperature := toStr latest.temperature ++ "°C"
          humidity := toStr latest.humidity ++ "%"
          co2 := toStr latest.co2 ++ " ppm" }) ∧
    (step toStr (run toStr evs) (Event.fetchDone f.id (FetchResult.ok []))).latestSensorData =
      (run toStr evs).latestSensorData ∧
    (step toStr (run toStr evs) (Event.fetchDone f.id FetchResult.networkError)).latestSensorData =
      (run toStr evs).latestSensorData ∧
    (step toStr (run toStr evs) (Event.fetchDone f.id FetchResult.parseError)).latestSensorData =
      (run toStr evs).latestSensorData ∧
    ((∀ e ∈ evs, ∀ fid latest rest, e ≠ Event.fetchDone fid (FetchResult.ok (latest :: rest))) →
      (run toStr evs).latestSensorData = loadingSummary) := by
  have hinv := page_inv_run toStr evs
  refine ⟨fun latest rest => ?_, ?_, ?_, ?_, ?_⟩
  · rw [fetchDone_latest toStr _ hinv f hf hp hm]
  · rw [fetchDone_latest toStr _ hinv f hf hp hm]
  · rw [fetchDone_latest toStr _ hinv f hf hp hm]
  · rw [fetchDone_latest toStr _ hinv f hf hp hm]
  · intro hno
    have key : ∀ (es : List (Event V)) (s : State V),
        (∀ e ∈ es, ∀ fid latest rest, e ≠ Event.fetchDone fid (FetchResult.ok (latest :: rest))) →
        (es.foldl (step toStr) s).latestSensorData = s.latestSensorData := by
      intro es
      induction es with
      | nil => intro s _; rfl
      | cons e es ih =>
        intro s hes
        rw [List.foldl_cons, ih _ (fun x hx => hes x (List.mem_cons_of_mem _ hx))]
        have he := hes e (List.mem_cons_self _ _)
        cases e with
        | setNodeId v =>
          simp only [step]; split
          · unfold setNodeId; split
            · rfl
            · simp only [effect, cleanup, fetchSensorData]; split <;> rfl
          · rfl
        | unmount =>
          simp only [step]; split
          · simp only [unmount, cleanup]; split <;> rfl
          · rfl
        | tick tid =>
          simp only [step]; split
          · split
            · rfl
            · rfl
          · rfl
        | fetchDone fid result =>
          simp only [step]; split
          · split
            · split
              · rw [resolve_latest]
                cases result with
                | networkError => rfl
                | parseError => rfl
                | ok data =>
                  cases data with
                  | nil => rfl
                  | cons a as => exact absurd rfl (he fid a as)
              · rfl
            · rfl
          · rfl
    have := key evs init hno
    unfold run
    rw [this]
    simp [init, effect, fetchSensorData]

/-- C7 at a concrete run: the request issued at mount succeeds with two
records; the summary is taken from the first. -/
theorem summary_derivation_witness :
    ((⟨0, "ESP32-1", true⟩ : Fetch) ∈ (run Nat.repr []).fetches ∧
      (run Nat.repr []).mounted = true ∧
      (run Nat.repr []).latestSensorData = loadingSummary) ∧
    (step Nat.repr (run Nat.repr [])
        (Event.fetchDone 0 (FetchResult.ok
          [⟨"ESP32-1", 7, 23, 45, 410⟩, ⟨"ESP32-1", 6, 22, 44, 400⟩]))).latestSensorData =
      { temperature := "23°C", humidity := "45%", co2 := "410 ppm" } := by
  refine ⟨by decide, ?_⟩
  rw [(summary_derivation Nat.repr [] ⟨0, "ESP32-1", true⟩ (by decide) rfl (by decide)).1]
  decide

/-- C8 (as stated) fails: the request issued at mount for "ESP32-1" is still
pending when the node is changed to "ESP32-2" and that node's own request has
succeeded; when the old request then succeeds, `latestSensorData` is
overwritten with the "ESP32-1" values although "ESP32-2" is selected. -/
theorem stale_fetch_overwrites_summary :
    (⟨0, "ESP32-1", true⟩ : Fetch) ∈
      (run Nat.repr [Event.setNodeId "ESP32-2",
        Event.fetchDone 1 (FetchResult.ok [⟨"ESP32-2", 8, 30, 60, 500⟩])]).fetches ∧
    (run Nat.repr [Event.setNodeId "ESP32-2",
        Event.fetchDone 1 (FetchResult.ok [⟨"ESP32-2", 8, 30, 60, 500⟩])]).nodeId = "ESP32-2" ∧
    (run Nat.repr [Event.setNodeId "ESP32-2",
        Event.fetchDone 1 (FetchResult.ok [⟨"ESP32-2", 8, 30, 60, 500⟩])]).latestSensorData =
      { temperature := "30°C", humidity := "60%", co2 := "500 ppm" } ∧
    ¬ ((step Nat.repr
        (run Nat.repr [Event.setNodeId "ESP32-2",
          Event.fetchDone 1 (FetchResult.ok [⟨"ESP32-2", 8, 30, 60, 500⟩])])
        (Event.fetchDone 0 (FetchResult.ok [⟨"ESP32-1", 7, 23, 45, 410⟩]))).latestSensorData =
      (run Nat.repr [Event.setNodeId "ESP32-2",
        Event.fetchDone 1 (FetchResult.ok [⟨"ESP32-2", 8, 30, 60, 500⟩])]).latestSensorData) := by
  decide

/-- C8 (amended): when the node of a mounted page changes to a different
value `v`, the one active timer is cleared and exactly one new timer, polling
`v`, is started; afterwards a timer that fires can only start a request for
`v`.  A request that is still pending at that moment, for whichever node it
was issued, is not discarded: if it succeeds with a non-empty array,
`latestSensorData` is taken from its first record. -/
theorem node_change_restarts_timer {V : Type} (toStr : V → String) (evs : List (Event V))
    (v : String) (hm : (run toStr evs).mounted = true) (hv : v ≠ (run toStr evs).nodeId) :
    (∃ t ts, (run toStr evs).timers = t :: ts ∧ activeTimers (run toStr evs) = [t] ∧
      t.nodeId = (run toStr evs).nodeId ∧
      (step toStr (run toStr evs) (Event.setNodeId v)).timers =
        ⟨t.id + 1, v, true⟩ :: { t with active := false } :: ts ∧
      activeTimers (step toStr (run toStr evs) (Event.setNodeId v)) = [⟨t.id + 1, v, true⟩]) ∧
    (step toStr (run toStr evs) (Event.setNodeId v)).nodeId = v ∧
    (∀ tid,
      step toStr (step toStr (run toStr evs) (Event.setNodeId v)) (Event.tick tid) =
        step toStr (run toStr evs) (Event.setNodeId v) ∨
      step toStr (step toStr (run toStr evs) (Event.setNodeId v)) (Event.tick tid) =
        fetchSensorData v (step toStr (run toStr evs) (Event.setNodeId v))) ∧
    (∀ f ∈ (step toStr (run toStr evs) (Event.setNodeId v)).fetches, f.pending = true →
      ∀ (latest : Reading V) (rest : List (Reading V)),
        (step toStr (step toStr (run toStr evs) (Event.setNodeId v))
          (Event.fetchDone f.id (FetchResult.ok (latest :: rest)))).latestSensorData =
        { temperature := toStr latest.temperature ++ "°C"
          humidity := toStr latest.humidity ++ "%"
          co2 := toStr latest.co2 ++ " ppm" }) := by
  have hinv := page_inv_run toStr evs
  have hinv2 := page_inv_step toStr _ (Event.setNodeId v) hinv
  have hstep : step toStr (run toStr evs) (Event.setNodeId v) =
      effect (cleanup { run toStr evs with nodeId := v }) := by
    simp [step, hm, setNodeId, hv]
  have hnode : (step toStr (run toStr evs) (Event.setNodeId v)).nodeId = v := by
    rw [hstep]; simp only [effect, cleanup, fetchSensorData]; split <;> rfl
  have hmounted : (step toStr (run toStr evs) (Event.setNodeId v)).mounted = true := by
    rw [hstep]; simp only [effect, cleanup, fetchSensorData]; split <;> exact hm
  refine ⟨?_, hnode, ?_, ?_⟩
  · obtain ⟨⟨t, ts, hs, hid, hact, hn, hold⟩, -⟩ := hinv
    have hts : ts.filter (fun t => t.active) = [] := by
      rw [List.filter_eq_nil_iff]
      intro j hj
      simp [hold j hj]
    have hta : t.active = true := by rw [hact, hm]
    refine ⟨t, ts, hs, ?_, hn, ?_, ?_⟩
    · simp [activeTimers, hs, List.filter_cons, hta, hts]
    · rw [hstep]; simp [effect, cleanup, hs, fetchSensorData, hid]
    · rw [hstep]; simp [activeTimers, effect, cleanup, hs, fetchSensorData, hid, List.filter_cons, hts]
  · intro tid
    have := tick_current toStr _ hinv2 tid
    rw [hnode] at this
    exact this
  · intro f hf hp latest rest
    rw [fetchDone_latest toStr _ hinv2 f hf hp hmounted]

/-- C8 (amended) at a concrete run: the node changes from "ESP32-1" to
"ESP32-2" right after mount; timer 0 is cleared and timer 1 started, and the
request issued at mount still updates the summary. -/
theorem node_change_restarts_timer_witness :
    ((run Nat.repr []).mounted = true ∧ "ESP32-2" ≠ (run Nat.repr []).nodeId) ∧
    (step Nat.repr (run Nat.repr []) (Event.setNodeId "ESP32-2")).timers =
      [⟨1, "ESP32-2", true⟩, ⟨0, "ESP32-1", false⟩] ∧
    (step Nat.repr (step Nat.repr (run Nat.repr []) (Event.setNodeId "ESP32-2"))
        (Event.fetchDone 0 (FetchResult.ok [⟨"ESP32-1", 7, 23, 45, 410⟩]))).latestSensorData =
      { temperature := "23°C", humidity := "45%", co2 := "410 ppm" } := by
  have h := node_change_restarts_timer Nat.repr [] "ESP32-2" (by decide) (by decide)
  refine ⟨by decide, by decide, ?_⟩
  rw [h.2.2.2 ⟨0, "ESP32-1", true⟩ (by decide) rfl]
  decide

end OverviewPage
end Dashboard
